import Mathlib

/-!
Shallow embedding of the Tact API face-verification / audio-extraction
service (`src/api/views.py`, `src/api/utils.py`, `src/api/serializers.py`).

Python floats are modelled by `ℚ`.  The third-party libraries (OpenCV,
InsightFace, the sklearn cosine similarity, urllib, moviepy) are modelled by
environment parameters: each request carries an `ImageOutcome` per image
(what `cv2.imread` + `FaceAnalysis.get` produce for that file), an abstract
cosine-similarity function on embeddings, and outcomes for the file save,
the URL download, the video/audio conversion and the response preparation.
The control flow owned by the repository — validation, temporary-file lifecycle,
response shaping — is translated statement by statement from the source.
-/

/-- An uploaded file as seen by Django: a name and a byte size.
The Django `File.__bool__` is `bool(self.name)`, so truthiness is name-based. -/
structure UploadedFile where
  name : String
  size : Nat
deriving Repr, DecidableEq

/-- JSON-shaped bodies this service can emit. Each constructor records exactly
the keys of the corresponding Python dict. -/
inductive HttpBody where
  /-- the error payloads of `recognize_face`, a dict with the single key error. -/
  | errorBody (error : String)
  /-- the verification payloads with keys matched, distance, threshold and
  message, as built in `recognize_face` lines 181-193. -/
  | verifyBody (matched : Bool) (distance threshold : ℚ) (message : String)
  /-- the DRF `serializer.errors` payload of `convert_video_to_audio_api`. -/
  | serializerErrors
  /-- a streamed `FileResponse` with its Content-Type, Content-Length and
  Content-Disposition headers. -/
  | audioStream (contentType : String) (contentLength : Nat) (contentDisposition : String)
  /-- the error payloads of `convert_video_to_audio_api`, a dict with keys
  status and message. -/
  | convError (message : String)
deriving Repr, DecidableEq

structure HttpResponse where
  status : Nat
  body : HttpBody
deriving Repr, DecidableEq

/-- What loading and face-scanning one image file yields, abstracting
`cv2.imread` and `GLOBAL_FACE_APP.get`. -/
inductive ImageOutcome (E : Type) where
  /-- `cv2.imread` returned `None` (the nested helper then raises ValueError). -/
  | loadFail
  /-- the face-analysis library itself raised, with this message. -/
  | exn (msg : String)
  /-- detection succeeded and found faces with these embeddings, in order. -/
  | faces (fs : List E)
deriving Repr

/-- The dict returned by `perform_face_recognition_verification`. -/
structure VerifResult where
  matched : Bool
  similarity : ℚ
  threshold : ℚ
  error : Option String
deriving Repr, DecidableEq

def VERIFICATION_THRESHOLD : ℚ := 45 / 100

/-- The nested helper `get_face_embedding` of
`perform_face_recognition_verification` (views.py lines 63-82).
`Except.error` models a raised exception (propagating to the outer
`except`); `Except.ok` carries the Python pair `(embedding, error_message)`. -/
def get_face_embedding {E : Type} (out : ImageOutcome E) (file_path label : String) :
    Except String (Option E × Option String) :=
  match out with
  | .loadFail => .error ("Could not load image file from path: " ++ file_path)
  | .exn msg => .error msg
  | .faces [] =>
      .ok (none, some ("Face detection failed in the " ++ label ++
        " image. Ensure face is centered and clear."))
  | .faces (e :: rest) =>
      if rest.isEmpty then
        .ok (some e, none)
      else
        .ok (none, some ("Multiple faces detected (" ++ toString (e :: rest).length ++
          ") in the " ++ label ++ " image. Only one person must be in the frame."))

/-- `perform_face_recognition_verification` (views.py lines 46-118).
`modelLoaded` is `GLOBAL_FACE_APP is not None`; `cosine_similarity` abstracts
`sklearn.metrics.pairwise.cosine_similarity` on the two embeddings, applied —
as in line 100 — with the reference embedding first. -/
def perform_face_recognition_verification {E : Type} (modelLoaded : Bool)
    (liveOut refOut : ImageOutcome E) (cosine_similarity : E → E → ℚ)
    (file1_path file2_path : String) : VerifResult :=
  if modelLoaded = false then
    { matched := false, similarity := -1, threshold := -1,
      error := some "Face recognition service is unavailable (model failed to load)." }
  else
    match get_face_embedding liveOut file1_path "live camera" with
    | .error e =>
        { matched := false, similarity := -1, threshold := -1,
          error := some ("InsightFace processing failed unexpectedly: " ++ e) }
    | .ok (encoding_live, error_live) =>
      match error_live with
      | some err =>
          { matched := false, similarity := -1, threshold := VERIFICATION_THRESHOLD,
            error := some err }
      | none =>
        match get_face_embedding refOut file2_path "Firebase reference" with
        | .error e =>
            { matched := false, similarity := -1, threshold := -1,
              error := some ("InsightFace processing failed unexpectedly: " ++ e) }
        | .ok (encoding_reference, error_reference) =>
          match error_reference with
          | some err =>
              { matched := false, similarity := -1, threshold := VERIFICATION_THRESHOLD,
                error := some err }
          | none =>
            match encoding_live, encoding_reference with
            | some el, some er =>
                let similarity := cosine_similarity er el
                { matched := decide (VERIFICATION_THRESHOLD < similarity),
                  similarity := similarity, threshold := VERIFICATION_THRESHOLD,
                  error := none }
            | _, _ =>
                -- an absent embedding with no error message would make Python
                -- dereference None, raising inside the same try block
                { matched := false, similarity := -1, threshold := -1,
                  error := some "InsightFace processing failed unexpectedly: embedding missing" }

/-- The fields `recognize_face` reads off the request. -/
structure VerifyRequest where
  live_image : Option UploadedFile
  reference_url : Option String

/-- Outcome of writing the uploaded chunks to the temp file: success, or an
exception raised before/after the file came into existence. -/
inductive SaveOutcome where
  | ok
  | raised (msg : String) (fileCreated : Bool)
deriving Repr, DecidableEq

/-- Outcome of `urllib.request.urlretrieve`: success, or failure possibly
leaving a partial file behind. -/
inductive DownloadOutcome where
  | ok
  | failed (leftoverFile : Bool)
deriving Repr, DecidableEq

/-- Per-request environment of `recognize_face`: the generated temp paths and
the behavior of every external effect the handler performs. -/
structure VerifyEnv (E : Type) where
  cameraTempPath : String
  firebaseTempPath : String
  save : SaveOutcome
  download : DownloadOutcome
  modelLoaded : Bool
  liveOut : ImageOutcome E
  refOut : ImageOutcome E
  cosine_similarity : E → E → ℚ

/-- Existence of the two temp files of `recognize_face`. -/
structure FsState where
  cameraTemp : Bool
  firebaseTemp : Bool
deriving Repr, DecidableEq

/-- the guarded `os.remove` on the existence bit of one file. -/
def removeIfExists (present : Bool) : Bool :=
  if present then false else present

/-- The `finally` block of `recognize_face` (views.py lines 171-176). -/
def finallyCleanup (fs : FsState) : FsState :=
  { cameraTemp := removeIfExists fs.cameraTemp,
    firebaseTemp := removeIfExists fs.firebaseTemp }

/-- Python truthiness of the live_image entry of `request.FILES`. -/
def fileTruthy (f : Option UploadedFile) : Bool :=
  match f with
  | none => false
  | some u => u.name != ""

/-- Python truthiness of the reference_url entry of `request.data`. -/
def strTruthy (s : Option String) : Bool :=
  match s with
  | none => false
  | some v => v != ""

/-- The view `recognize_face` (views.py lines 121-193).  Returns the HTTP
response together with the final existence state of the two temp files. -/
def recognize_face {E : Type} (request : VerifyRequest) (env : VerifyEnv E) :
    HttpResponse × FsState :=
  if fileTruthy request.live_image = false then
    ({ status := 400, body := .errorBody "Missing required file: live_image (from camera)" },
     { cameraTemp := false, firebaseTemp := false })
  else if strTruthy request.reference_url = false then
    ({ status := 400, body := .errorBody "Missing required field: reference_url" },
     { cameraTemp := false, firebaseTemp := false })
  else
    let url := request.reference_url.getD ""
    match env.save with
    | .raised msg created =>
        ({ status := 500, body := .errorBody ("File or IO processing failed: " ++ msg) },
         finallyCleanup { cameraTemp := created, firebaseTemp := false })
    | .ok =>
      match env.download with
      | .failed leftover =>
          ({ status := 400,
             body := .errorBody ("Could not download reference image from URL: " ++ url) },
           finallyCleanup { cameraTemp := true, firebaseTemp := leftover })
      | .ok =>
          let vr := perform_face_recognition_verification env.modelLoaded env.liveOut
            env.refOut env.cosine_similarity env.cameraTempPath env.firebaseTempPath
          let fsFinal := finallyCleanup { cameraTemp := true, firebaseTemp := true }
          match vr.error with
          | some msg =>
              ({ status := 200, body := .verifyBody false vr.similarity vr.threshold msg },
               fsFinal)
          | none =>
              ({ status := 200,
                 body := .verifyBody vr.matched vr.similarity vr.threshold
                   (if vr.matched then "Face verified successfully." else "Faces do not match.") },
               fsFinal)

/-- The field `convert_video_to_audio_api` validates. -/
structure VideoRequest where
  video_file : Option UploadedFile

/-- `VideoUploadSerializer.is_valid()`: the DRF `FileField` requires a file with
a non-empty name and, since `allow_empty_file` defaults to False, a non-zero
size. -/
def VideoUploadSerializer_is_valid (r : VideoRequest) : Bool :=
  match r.video_file with
  | none => false
  | some f => f.name != "" && f.size != 0

/-- Outcome of the moviepy load + `write_audiofile` call inside
`convert_video_to_audio`: success, or an exception with a flag recording
whether a partially written output file was left at the output path. -/
inductive ConvOutcome where
  | ok
  | raised (msg : String) (leftoverAudio : Bool)
deriving Repr, DecidableEq

/-- Per-request environment of `convert_video_to_audio_api`. `streamPrep` is
the outcome of preparing the file response after a successful conversion
(`open` of the audio file and `os.path.getsize`): `none` means no exception. -/
structure AudioEnv where
  mediaRoot : String
  uniqueId : String
  save : SaveOutcome
  conversion : ConvOutcome
  streamPrep : Option String
  audioSize : Nat

/-- `os.path.basename` for forward-slash paths. -/
def os_path_basename (p : String) : String :=
  (p.splitOn "/").getLastD ""

/-- The root part of `os.path.splitext` on a path component: the extension
starts at the last dot, unless every character before that dot is itself a
dot. -/
def splitextRoot (name : String) : String :=
  let cs := name.toList
  let dotIdxs := (List.range cs.length).filter (fun i => cs.getD i ' ' == '.')
  match dotIdxs.getLast? with
  | none => name
  | some i => if (cs.take i).all (fun c => c == '.') then name else String.mk (cs.take i)

/-- `convert_video_to_audio` (utils.py lines 4-24): computes the `.mp3`
output path from the base name of the video and invokes moviepy; on a library
exception it re-raises with the `Conversion Error: ` prefix. -/
def convert_video_to_audio (video_path output_dir : String) (conv : ConvOutcome) :
    Except String String :=
  let base_name := splitextRoot (os_path_basename video_path)
  let output_filename := base_name ++ ".mp3"
  let output_path := output_dir ++ "/" ++ output_filename
  match conv with
  | .ok => .ok output_path
  | .raised msg _ => .error ("Conversion Error: " ++ msg)

/-- Existence of the temp video and the converted audio file. -/
structure AudioFs where
  videoTemp : Bool
  audioFile : Bool
deriving Repr, DecidableEq

/-- `mimetypes.guess_type`, restricted to the `.mp3` table entry this service
can produce. -/
def mimetypes_guess_type (p : String) : Option String :=
  if p.endsWith ".mp3" then some "audio/mpeg" else none

/-- The view `convert_video_to_audio_api` (views.py lines 199-277). Returns
the HTTP response together with the final existence state of the temp video
and converted audio files. In the `except` block the converted audio file is
removed only when `converted_audio_path` was assigned, i.e. only when
`convert_video_to_audio` had already returned. -/
def convert_video_to_audio_api (request : VideoRequest) (env : AudioEnv) :
    HttpResponse × AudioFs :=
  if VideoUploadSerializer_is_valid request = false then
    ({ status := 400, body := .serializerErrors }, { videoTemp := false, audioFile := false })
  else
    let video_file := (request.video_file).getD { name := "", size := 0 }
    let conversion_dir := env.mediaRoot ++ "/audio_output"
    let temp_video_path :=
      env.mediaRoot ++ "/uploads" ++ "/video_" ++ env.uniqueId ++ "_" ++ video_file.name
    match env.save with
    | .raised msg created =>
        ({ status := 500, body := .convError ("Conversion failed: " ++ msg) },
         { videoTemp := removeIfExists created, audioFile := false })
    | .ok =>
      match convert_video_to_audio temp_video_path conversion_dir env.conversion with
      | .error m =>
          let leftover := match env.conversion with
            | .raised _ l => l
            | .ok => false
          ({ status := 500, body := .convError ("Conversion failed: " ++ m) },
           { videoTemp := removeIfExists true, audioFile := leftover })
      | .ok converted_audio_path =>
        match env.streamPrep with
        | some m =>
            ({ status := 500, body := .convError ("Conversion failed: " ++ m) },
             { videoTemp := removeIfExists true, audioFile := removeIfExists true })
        | none =>
            let audio_filename := os_path_basename converted_audio_path
            let content_type :=
              (mimetypes_guess_type converted_audio_path).getD "application/octet-stream"
            ({ status := 201,
               body := .audioStream content_type env.audioSize
                 ("attachment; filename=\x22" ++ audio_filename ++ "\x22") },
             { videoTemp := false, audioFile := true })

/-! Concrete inputs used by witness and counterexample theorems. -/

def testFile : UploadedFile := { name := "live.jpg", size := 5 }

def testReq : VerifyRequest :=
  { live_image := some testFile, reference_url := some "https://example.test/ref.jpg" }

def emptyReq : VerifyRequest := { live_image := none, reference_url := none }

def baseEnv : VerifyEnv ℚ :=
  { cameraTempPath := "/tmp/camera_7_ab12_live.jpg"
    firebaseTempPath := "/tmp/firebase_7_ab12_ref.jpg"
    save := .ok
    download := .ok
    modelLoaded := true
    liveOut := .faces [2]
    refOut := .faces [3]
    cosine_similarity := fun a b => a * b / 10 }

def noFaceEnv : VerifyEnv ℚ := { baseEnv with liveOut := .faces [] }

def downloadFailEnv : VerifyEnv ℚ := { baseEnv with download := .failed false }

def modelDownEnv : VerifyEnv ℚ := { baseEnv with modelLoaded := false }

def multiFaceEnv : VerifyEnv ℚ := { baseEnv with liveOut := .faces [2, 5] }

def altEnv : VerifyEnv ℚ :=
  { baseEnv with
    modelLoaded := false
    liveOut := .loadFail
    refOut := .exn "boom"
    cosine_similarity := fun _ _ => 0 }

def saveFailEnv : VerifyEnv ℚ := { baseEnv with save := .raised "disk full" true }

def testVideo : UploadedFile := { name := "clip.mp4", size := 100 }

def testVReq : VideoRequest := { video_file := some testVideo }

def emptyVReq : VideoRequest := { video_file := none }

def baseAEnv : AudioEnv :=
  { mediaRoot := "/app/media", uniqueId := "ab12cd34"
    save := .ok, conversion := .ok, streamPrep := none, audioSize := 2048 }

def altAEnv : AudioEnv :=
  { baseAEnv with save := .raised "disk full" true, conversion := .raised "no codec" false }

def convFailAEnv : AudioEnv :=
  { baseAEnv with conversion := .raised "ffmpeg interrupted" true }

/-! Claim theorems. -/

/-- Helper: whenever `perform_face_recognition_verification` reports an error,
its `matched` is false and its `similarity` is the sentinel -1; when the model
never loaded, its `threshold` is the sentinel -1 as well. -/
theorem perform_error_sentinels {E : Type} (ml : Bool) (lo ro : ImageOutcome E)
    (cs : E → E → ℚ) (p1 p2 : String)
    (h : (perform_face_recognition_verification ml lo ro cs p1 p2).error ≠ none) :
    (perform_face_recognition_verification ml lo ro cs p1 p2).matched = false ∧
    (perform_face_recognition_verification ml lo ro cs p1 p2).similarity = -1 ∧
    (ml = false → (perform_face_recognition_verification ml lo ro cs p1 p2).threshold = -1) := by
  cases ml
  · simp [perform_face_recognition_verification]
  · cases lo with
    | loadFail => simp [perform_face_recognition_verification, get_face_embedding]
    | exn m => simp [perform_face_recognition_verification, get_face_embedding]
    | faces l =>
      cases l with
      | nil => simp [perform_face_recognition_verification, get_face_embedding]
      | cons e rest =>
        cases rest with
        | cons f rs => simp [perform_face_recognition_verification, get_face_embedding]
        | nil =>
          cases ro with
          | loadFail => simp [perform_face_recognition_verification, get_face_embedding]
          | exn m => simp [perform_face_recognition_verification, get_face_embedding]
          | faces l2 =>
            cases l2 with
            | nil => simp [perform_face_recognition_verification, get_face_embedding]
            | cons e2 rest2 =>
              cases rest2 with
              | cons f2 rs2 =>
                  simp [perform_face_recognition_verification, get_face_embedding]
              | nil =>
                  simp [perform_face_recognition_verification, get_face_embedding] at h

/-- C1: when exactly one face is detected in each image (and the request is
well-formed, the save and download succeed and the model is loaded), the
response is HTTP 200 whose matched flag is true exactly when the cosine
similarity of the two embeddings strictly exceeds the returned threshold
0.45, and whose distance field is that similarity value. -/
theorem claim1_single_face_similarity_contract {E : Type} (req : VerifyRequest)
    (env : VerifyEnv E) (e1 e2 : E)
    (hfile : fileTruthy req.live_image = true)
    (hurl : strTruthy req.reference_url = true)
    (hsave : env.save = .ok)
    (hdl : env.download = .ok)
    (hmodel : env.modelLoaded = true)
    (hlive : env.liveOut = .faces [e1])
    (href : env.refOut = .faces [e2]) :
    (recognize_face req env).1.status = 200 ∧
    (recognize_face req env).1.body =
      .verifyBody (decide (VERIFICATION_THRESHOLD < env.cosine_similarity e2 e1))
        (env.cosine_similarity e2 e1) VERIFICATION_THRESHOLD
        (if decide (VERIFICATION_THRESHOLD < env.cosine_similarity e2 e1) then
          "Face verified successfully." else "Faces do not match.") ∧
    (decide (VERIFICATION_THRESHOLD < env.cosine_similarity e2 e1) = true ↔
      VERIFICATION_THRESHOLD < env.cosine_similarity e2 e1) := by
  obtain ⟨c, f, sv, dl, ml, lo, ro, cs⟩ := env
  simp only at hsave hdl hmodel hlive href
  subst hsave hdl hmodel hlive href
  refine ⟨?_, ?_, by simp⟩ <;>
    simp [recognize_face, hfile, hurl, perform_face_recognition_verification,
      get_face_embedding]

/-- C1 witness: a request with one face per image and similarity 0.6. -/
theorem claim1_witness :
    fileTruthy testReq.live_image = true ∧
    (recognize_face testReq baseEnv).1.status = 200 ∧
    (recognize_face testReq baseEnv).1.body =
      .verifyBody (decide (VERIFICATION_THRESHOLD < baseEnv.cosine_similarity 3 2))
        (baseEnv.cosine_similarity 3 2) VERIFICATION_THRESHOLD
        (if decide (VERIFICATION_THRESHOLD < baseEnv.cosine_similarity 3 2) then
          "Face verified successfully." else "Faces do not match.") ∧
    (decide (VERIFICATION_THRESHOLD < baseEnv.cosine_similarity 3 2) = true ↔
      VERIFICATION_THRESHOLD < baseEnv.cosine_similarity 3 2) :=
  ⟨by decide,
   claim1_single_face_similarity_contract testReq baseEnv 2 3 (by decide) (by decide)
     rfl rfl rfl rfl rfl⟩

/-- C2: when no face is detected in the live image, or in the reference image
(the live image having exactly one), a well-formed request whose save and
download succeeded gets HTTP 200 — never 400 — with matched false and the
detection-failure message. -/
theorem claim2_no_face_http200 {E : Type} (req : VerifyRequest) (env : VerifyEnv E)
    (hfile : fileTruthy req.live_image = true)
    (hurl : strTruthy req.reference_url = true)
    (hsave : env.save = .ok)
    (hdl : env.download = .ok)
    (hmodel : env.modelLoaded = true)
    (hface : env.liveOut = .faces ([] : List E) ∨
      ((∃ e, env.liveOut = .faces [e]) ∧ env.refOut = .faces ([] : List E))) :
    (recognize_face req env).1.status = 200 ∧
    ∃ m, (recognize_face req env).1.body =
        .verifyBody false (-1) VERIFICATION_THRESHOLD m ∧
      (m = "Face detection failed in the live camera image. Ensure face is centered and clear." ∨
       m = "Face detection failed in the Firebase reference image. Ensure face is centered and clear.") := by
  obtain ⟨c, f, sv, dl, ml, lo, ro, cs⟩ := env
  simp only at hsave hdl hmodel
  subst hsave hdl hmodel
  rcases hface with hlive | ⟨⟨e, hlive⟩, href⟩
  · simp only at hlive
    subst hlive
    refine ⟨?_, ?_⟩ <;>
      simp [recognize_face, hfile, hurl, perform_face_recognition_verification,
        get_face_embedding]
  · simp only at hlive href
    subst hlive href
    refine ⟨?_, ?_⟩ <;>
      simp [recognize_face, hfile, hurl, perform_face_recognition_verification,
        get_face_embedding]

/-- C2 witness: a request whose live image yields no detected face. -/
theorem claim2_witness :
    noFaceEnv.liveOut = .faces ([] : List ℚ) ∧
    ((recognize_face testReq noFaceEnv).1.status = 200 ∧
     ∃ m, (recognize_face testReq noFaceEnv).1.body =
         .verifyBody false (-1) VERIFICATION_THRESHOLD m ∧
       (m = "Face detection failed in the live camera image. Ensure face is centered and clear." ∨
        m = "Face detection failed in the Firebase reference image. Ensure face is centered and clear.")) :=
  ⟨rfl, claim2_no_face_http200 testReq noFaceEnv (by decide) (by decide) rfl rfl rfl
    (Or.inl rfl)⟩

/-- C5: for every request that passes field validation, both temporary files
are gone when the handler returns, on every exit path. -/
theorem claim5_temp_files_deleted {E : Type} (req : VerifyRequest) (env : VerifyEnv E)
    (hfile : fileTruthy req.live_image = true)
    (hurl : strTruthy req.reference_url = true) :
    (recognize_face req env).2 = { cameraTemp := false, firebaseTemp := false } := by
  obtain ⟨c, f, sv, dl, ml, lo, ro, cs⟩ := env
  cases sv with
  | raised m cr =>
      simp [recognize_face, hfile, hurl, finallyCleanup, removeIfExists]
  | ok =>
    cases dl with
    | failed lf =>
        simp [recognize_face, hfile, hurl, finallyCleanup, removeIfExists]
    | ok =>
      cases hvr : (perform_face_recognition_verification ml lo ro cs c f).error <;>
        simp [recognize_face, hfile, hurl, hvr, finallyCleanup, removeIfExists]

/-- C5 witness: cleanup on a request whose save raised after creating the
temp file. -/
theorem claim5_witness :
    fileTruthy testReq.live_image = true ∧
    (recognize_face testReq saveFailEnv).2 = { cameraTemp := false, firebaseTemp := false } :=
  ⟨by decide, claim5_temp_files_deleted testReq saveFailEnv (by decide) (by decide)⟩

/-- C6: for every request that passes field validation, whose save succeeded
and whose download succeeded, the body has exactly the declared shape —
boolean matched, numeric distance, numeric threshold, string message —
whether or not verification succeeded. -/
theorem claim6_response_shape {E : Type} (req : VerifyRequest) (env : VerifyEnv E)
    (hfile : fileTruthy req.live_image = true)
    (hurl : strTruthy req.reference_url = true)
    (hsave : env.save = .ok)
    (hdl : env.download = .ok) :
    (recognize_face req env).1.status = 200 ∧
    ∃ (b : Bool) (d t : ℚ) (s : String),
      (recognize_face req env).1.body = .verifyBody b d t s := by
  obtain ⟨c, f, sv, dl, ml, lo, ro, cs⟩ := env
  simp only at hsave hdl
  subst hsave hdl
  cases hvr : (perform_face_recognition_verification ml lo ro cs c f).error <;>
    simp [recognize_face, hfile, hurl, hvr]

/-- C6 witness: the declared shape on a request whose model never loaded
(a failing verification). -/
theorem claim6_witness :
    modelDownEnv.save = SaveOutcome.ok ∧
    ((recognize_face testReq modelDownEnv).1.status = 200 ∧
     ∃ (b : Bool) (d t : ℚ) (s : String),
       (recognize_face testReq modelDownEnv).1.body = .verifyBody b d t s) :=
  ⟨rfl, claim6_response_shape testReq modelDownEnv (by decide) (by decide) rfl rfl⟩

/-- C9: every verification that ends in an error outcome yields HTTP 200 with
matched false and a distance equal to the sentinel -1; when the model failed
to load, the threshold is the sentinel -1 as well. -/
theorem claim9_error_sentinels {E : Type} (req : VerifyRequest) (env : VerifyEnv E)
    (hfile : fileTruthy req.live_image = true)
    (hurl : strTruthy req.reference_url = true)
    (hsave : env.save = .ok)
    (hdl : env.download = .ok)
    (herr : (perform_face_recognition_verification env.modelLoaded env.liveOut env.refOut
      env.cosine_similarity env.cameraTempPath env.firebaseTempPath).error ≠ none) :
    (recognize_face req env).1.status = 200 ∧
    ∃ t m, (recognize_face req env).1.body = .verifyBody false (-1) t m ∧
      (env.modelLoaded = false → t = -1) := by
  obtain ⟨c, f, sv, dl, ml, lo, ro, cs⟩ := env
  simp only at hsave hdl herr
  subst hsave hdl
  obtain ⟨hm, hs, ht⟩ := perform_error_sentinels ml lo ro cs c f herr
  rcases hvr : (perform_face_recognition_verification ml lo ro cs c f).error with _ | msg
  · exact absurd hvr herr
  · refine ⟨by simp [recognize_face, hfile, hurl, hvr],
      (perform_face_recognition_verification ml lo ro cs c f).threshold, msg, ?_, ?_⟩
    · simp [recognize_face, hfile, hurl, hvr, hs]
    · intro hml
      exact ht hml

/-- C9 witness: the model-unavailable outcome, with both sentinels. -/
theorem claim9_witness :
    modelDownEnv.download = DownloadOutcome.ok ∧
    ((recognize_face testReq modelDownEnv).1.status = 200 ∧
     ∃ t m, (recognize_face testReq modelDownEnv).1.body = .verifyBody false (-1) t m ∧
       (modelDownEnv.modelLoaded = false → t = -1)) :=
  ⟨rfl, claim9_error_sentinels testReq modelDownEnv (by decide) (by decide) rfl rfl
    (by decide)⟩

/-- C10: when detection finds more than one face in the live image, or in the
reference image (the live image having exactly one), the response is HTTP 200
with matched false and a message reporting the number of faces, and the
result does not depend on the similarity function — no comparison happens. -/
theorem claim10_multiple_faces_rejected {E : Type} (req : VerifyRequest) (env : VerifyEnv E)
    (hfile : fileTruthy req.live_image = true)
    (hurl : strTruthy req.reference_url = true)
    (hsave : env.save = .ok)
    (hdl : env.download = .ok)
    (hmodel : env.modelLoaded = true)
    (hmulti : (∃ l, env.liveOut = .faces l ∧ 1 < l.length) ∨
      ((∃ e, env.liveOut = .faces [e]) ∧ ∃ l, env.refOut = .faces l ∧ 1 < l.length)) :
    (recognize_face req env).1.status = 200 ∧
    (∃ n lbl, 1 < n ∧ (lbl = "live camera" ∨ lbl = "Firebase reference") ∧
      (recognize_face req env).1.body = .verifyBody false (-1) VERIFICATION_THRESHOLD
        ("Multiple faces detected (" ++ toString n ++ ") in the " ++ lbl ++
          " image. Only one person must be in the frame.")) ∧
    ∀ cs2 : E → E → ℚ,
      recognize_face req { env with cosine_similarity := cs2 } = recognize_face req env := by
  obtain ⟨c, f, sv, dl, ml, lo, ro, cs⟩ := env
  simp only at hsave hdl hmodel
  subst hsave hdl hmodel
  rcases hmulti with ⟨l, hlive, hlen⟩ | ⟨⟨e, hlive⟩, l, href, hlen⟩
  · simp only at hlive
    subst hlive
    match l, hlen with
    | e :: g :: rs, _ =>
      refine ⟨?_, ⟨(e :: g :: rs).length, "live camera", by simp, Or.inl rfl, ?_⟩, ?_⟩ <;>
        simp [recognize_face, hfile, hurl, perform_face_recognition_verification,
          get_face_embedding]
  · simp only at hlive href
    subst hlive href
    match l, hlen with
    | e2 :: g :: rs, _ =>
      refine ⟨?_, ⟨(e2 :: g :: rs).length, "Firebase reference", by simp, Or.inr rfl, ?_⟩, ?_⟩ <;>
        simp [recognize_face, hfile, hurl, perform_face_recognition_verification,
          get_face_embedding]

/-- C10 witness: two faces in the live image. -/
theorem claim10_witness :
    multiFaceEnv.modelLoaded = true ∧
    ((recognize_face testReq multiFaceEnv).1.status = 200 ∧
     (∃ n lbl, 1 < n ∧ (lbl = "live camera" ∨ lbl = "Firebase reference") ∧
       (recognize_face testReq multiFaceEnv).1.body =
         .verifyBody false (-1) VERIFICATION_THRESHOLD
           ("Multiple faces detected (" ++ toString n ++ ") in the " ++ lbl ++
             " image. Only one person must be in the frame.")) ∧
     ∀ cs2 : ℚ → ℚ → ℚ,
       recognize_face testReq { multiFaceEnv with cosine_similarity := cs2 } =
         recognize_face testReq multiFaceEnv) :=
  ⟨rfl, claim10_multiple_faces_rejected testReq multiFaceEnv (by decide) (by decide)
    rfl rfl rfl (Or.inl ⟨[2, 5], rfl, by decide⟩)⟩

/-- C4: when the reference download fails for a well-formed request whose
save succeeded, the response is HTTP 400 with an error naming the URL, and
the result is independent of the whole verification environment — the
verifier is never invoked. -/
theorem claim4_download_failure_http400 {E : Type} (req : VerifyRequest) (env : VerifyEnv E)
    (url : String) (lf : Bool)
    (hfile : fileTruthy req.live_image = true)
    (hurl : req.reference_url = some url)
    (hne : url ≠ "")
    (hsave : env.save = .ok)
    (hdl : env.download = .failed lf) :
    (recognize_face req env).1 =
      { status := 400,
        body := .errorBody ("Could not download reference image from URL: " ++ url) } ∧
    ∀ (ml : Bool) (lo ro : ImageOutcome E) (cs2 : E → E → ℚ),
      recognize_face req
        { env with
          modelLoaded := ml
          liveOut := lo
          refOut := ro
          cosine_similarity := cs2 } =
      recognize_face req env := by
  obtain ⟨c, f, sv, dl, ml, lo, ro, cs⟩ := env
  simp only at hsave hdl
  subst hsave hdl
  constructor
  · simp [recognize_face, hfile, hurl, strTruthy, hne]
  · intro ml2 lo2 ro2 cs2
    simp [recognize_face, hfile, hurl, strTruthy, hne]

/-- C4 witness: a failing download for a concrete URL. -/
theorem claim4_witness :
    downloadFailEnv.download = DownloadOutcome.failed false ∧
    ((recognize_face testReq downloadFailEnv).1 =
      { status := 400,
        body := .errorBody
          ("Could not download reference image from URL: https://example.test/ref.jpg") } ∧
     ∀ (ml : Bool) (lo ro : ImageOutcome ℚ) (cs2 : ℚ → ℚ → ℚ),
       recognize_face testReq
         { downloadFailEnv with
           modelLoaded := ml
           liveOut := lo
           refOut := ro
           cosine_similarity := cs2 } =
       recognize_face testReq downloadFailEnv) :=
  ⟨rfl, claim4_download_failure_http400 testReq downloadFailEnv
    "https://example.test/ref.jpg" false (by decide) rfl (by decide) rfl rfl⟩

/-- C3: a verify request missing the live image or the reference URL gets
HTTP 400 with an error message and its result does not depend on the
environment (no verification happens); an extract-audio request failing
serializer validation gets HTTP 400 with the serializer errors and its
result does not depend on the environment (no conversion happens). -/
theorem claim3_missing_fields_http400 {E : Type} (req : VerifyRequest)
    (env env2 : VerifyEnv E) (vreq : VideoRequest) (aenv aenv2 : AudioEnv)
    (hmiss : fileTruthy req.live_image = false ∨ strTruthy req.reference_url = false)
    (hinvalid : VideoUploadSerializer_is_valid vreq = false) :
    ((recognize_face req env).1.status = 400 ∧
     (∃ m, (recognize_face req env).1.body = .errorBody m) ∧
     recognize_face req env = recognize_face req env2) ∧
    ((convert_video_to_audio_api vreq aenv).1.status = 400 ∧
     (convert_video_to_audio_api vreq aenv).1.body = .serializerErrors ∧
     convert_video_to_audio_api vreq aenv = convert_video_to_audio_api vreq aenv2) := by
  refine ⟨?_, ?_⟩
  · cases hfb : fileTruthy req.live_image with
    | false => exact ⟨by simp [recognize_face, hfb],
        ⟨"Missing required file: live_image (from camera)", by simp [recognize_face, hfb]⟩,
        by simp [recognize_face, hfb]⟩
    | true =>
      rcases hmiss with hm | hm
      · rw [hfb] at hm
        exact absurd hm (by simp)
      · exact ⟨by simp [recognize_face, hfb, hm],
          ⟨"Missing required field: reference_url", by simp [recognize_face, hfb, hm]⟩,
          by simp [recognize_face, hfb, hm]⟩
  · exact ⟨by simp [convert_video_to_audio_api, hinvalid],
      by simp [convert_video_to_audio_api, hinvalid],
      by simp [convert_video_to_audio_api, hinvalid]⟩

/-- C3 witness: a verify request missing both fields and an extract-audio
request missing the video file. -/
theorem claim3_witness :
    fileTruthy emptyReq.live_image = false ∧
    (((recognize_face emptyReq baseEnv).1.status = 400 ∧
      (∃ m, (recognize_face emptyReq baseEnv).1.body = .errorBody m) ∧
      recognize_face emptyReq baseEnv = recognize_face emptyReq altEnv) ∧
     ((convert_video_to_audio_api emptyVReq baseAEnv).1.status = 400 ∧
      (convert_video_to_audio_api emptyVReq baseAEnv).1.body = .serializerErrors ∧
      convert_video_to_audio_api emptyVReq baseAEnv =
        convert_video_to_audio_api emptyVReq altAEnv)) :=
  ⟨rfl, claim3_missing_fields_http400 emptyReq baseEnv altEnv emptyVReq baseAEnv altAEnv
    (Or.inl rfl) rfl⟩

/-- C7: when a valid extract-audio request saves and converts successfully
(and the response preparation raises nothing), the endpoint streams the audio
back as an attachment with Content-Disposition and Content-Length headers, and
the uploaded source video is deleted before returning. -/
theorem claim7_audio_success_stream_and_cleanup (vreq : VideoRequest) (env : AudioEnv)
    (hvalid : VideoUploadSerializer_is_valid vreq = true)
    (hsave : env.save = .ok)
    (hconv : env.conversion = .ok)
    (hstream : env.streamPrep = none) :
    (convert_video_to_audio_api vreq env).1.status = 201 ∧
    (∃ ct fn, (convert_video_to_audio_api vreq env).1.body =
      .audioStream ct env.audioSize ("attachment; filename=\x22" ++ fn ++ "\x22")) ∧
    (convert_video_to_audio_api vreq env).2.videoTemp = false := by
  obtain ⟨mr, uid, sv, cv, sp, asz⟩ := env
  simp only at hsave hconv hstream
  subst hsave hconv hstream
  refine ⟨?_, ?_, ?_⟩
  · simp [convert_video_to_audio_api, hvalid, convert_video_to_audio]
  · simp only [convert_video_to_audio_api, hvalid]
    simp [convert_video_to_audio, removeIfExists]
    exact ⟨_, rfl⟩
  · simp [convert_video_to_audio_api, hvalid, convert_video_to_audio, removeIfExists]

/-- C7 witness: a successful conversion of a concrete video upload. -/
theorem claim7_witness :
    VideoUploadSerializer_is_valid testVReq = true ∧
    ((convert_video_to_audio_api testVReq baseAEnv).1.status = 201 ∧
     (∃ ct fn, (convert_video_to_audio_api testVReq baseAEnv).1.body =
       .audioStream ct baseAEnv.audioSize ("attachment; filename=\x22" ++ fn ++ "\x22")) ∧
     (convert_video_to_audio_api testVReq baseAEnv).2.videoTemp = false) :=
  ⟨by decide, claim7_audio_success_stream_and_cleanup testVReq baseAEnv (by decide)
    rfl rfl rfl⟩

/-- C8 counterexample: a conversion that raises after partially writing the
audio file leaves that file behind — the cleanup block of the endpoint removes
the audio file when `converted_audio_path` was already assigned, which never
holds when `convert_video_to_audio` itself raised. -/
theorem claim8_counterexample :
    convFailAEnv.conversion = ConvOutcome.raised "ffmpeg interrupted" true ∧
    (convert_video_to_audio_api testVReq convFailAEnv).1.status = 500 ∧
    ¬ ((convert_video_to_audio_api testVReq convFailAEnv).2.audioFile = false) := by
  refine ⟨rfl, rfl, ?_⟩
  decide

/-- C8 (amended): on any exception while saving, converting, or preparing the
streamed response, the extract-audio endpoint returns HTTP 500 with a JSON
error body and the temporary video file is deleted; the converted audio file
is guaranteed deleted only when the exception arose after the conversion had
completed and recorded its path. For the verify endpoint, an I/O exception
while saving the upload yields HTTP 500 with a JSON error body. -/
theorem claim8_amended_exception_cleanup {E : Type} (vreq : VideoRequest) (env : AudioEnv)
    (req : VerifyRequest) (venv : VerifyEnv E) (msg : String) (created : Bool)
    (hvalid : VideoUploadSerializer_is_valid vreq = true)
    (hexc : env.save ≠ .ok ∨ env.conversion ≠ .ok ∨ env.streamPrep ≠ none)
    (hvfile : fileTruthy req.live_image = true)
    (hvurl : strTruthy req.reference_url = true)
    (hvsave : venv.save = .raised msg created) :
    ((convert_video_to_audio_api vreq env).1.status = 500 ∧
     (∃ m, (convert_video_to_audio_api vreq env).1.body = .convError m) ∧
     (convert_video_to_audio_api vreq env).2.videoTemp = false ∧
     (env.save = .ok → env.conversion = .ok →
       (convert_video_to_audio_api vreq env).2.audioFile = false)) ∧
    ((recognize_face req venv).1.status = 500 ∧
     (recognize_face req venv).1.body =
       .errorBody ("File or IO processing failed: " ++ msg)) := by
  constructor
  · obtain ⟨mr, uid, sv, cv, sp, asz⟩ := env
    simp only at hexc
    cases sv with
    | raised m cr =>
        refine ⟨?_, ⟨"Conversion failed: " ++ m, ?_⟩, ?_, ?_⟩ <;>
          simp [convert_video_to_audio_api, hvalid, removeIfExists]
    | ok =>
      cases cv with
      | raised m lv =>
          refine ⟨?_, ⟨"Conversion failed: " ++ ("Conversion Error: " ++ m), ?_⟩, ?_, ?_⟩ <;>
            simp [convert_video_to_audio_api, hvalid, convert_video_to_audio, removeIfExists]
      | ok =>
        cases sp with
        | none =>
            rcases hexc with h | h | h <;> simp at h
        | some m =>
            refine ⟨?_, ⟨"Conversion failed: " ++ m, ?_⟩, ?_, ?_⟩ <;>
              simp [convert_video_to_audio_api, hvalid, convert_video_to_audio, removeIfExists]
  · obtain ⟨c, f, sv, dl, ml, lo, ro, cs⟩ := venv
    simp only at hvsave
    subst hvsave
    constructor <;> simp [recognize_face, hvfile, hvurl]

/-- C8 (amended) witness: a conversion failure and a save failure side by
side, at concrete inputs. -/
theorem claim8_amended_witness :
    VideoUploadSerializer_is_valid testVReq = true ∧
    (((convert_video_to_audio_api testVReq convFailAEnv).1.status = 500 ∧
      (∃ m, (convert_video_to_audio_api testVReq convFailAEnv).1.body = .convError m) ∧
      (convert_video_to_audio_api testVReq convFailAEnv).2.videoTemp = false ∧
      (convFailAEnv.save = .ok → convFailAEnv.conversion = .ok →
        (convert_video_to_audio_api testVReq convFailAEnv).2.audioFile = false)) ∧
     ((recognize_face testReq saveFailEnv).1.status = 500 ∧
      (recognize_face testReq saveFailEnv).1.body =
        .errorBody ("File or IO processing failed: " ++ "disk full"))) :=
  ⟨by decide, claim8_amended_exception_cleanup testVReq convFailAEnv testReq saveFailEnv
    "disk full" true (by decide) (Or.inr (Or.inl (by decide))) (by decide) (by decide) rfl⟩
